import Mathlib

/-!
Verification development for the `photo-convert` single-page image utility
(`src/components/ImageProcessor.tsx`).  JavaScript numbers are modelled as
exact rationals (`ℚ`); machine integers as `ℤ`/`ℕ`; the reactive component
state as an explicit record (`PState`) with the orchestrator's callbacks as
state-transition functions parametrised by the platform outcomes (decode,
canvas context, encode), which the code does not compute itself.
-/

namespace PhotoConvert

/-- Model of JavaScript `Math.round` on the (non-negative, in this program)
quantities involved: round half up, i.e. `⌊x + 1/2⌋`. -/
def jsRound (x : ℚ) : ℤ := ⌊x + 1 / 2⌋

/-- The dimension computation inside `processImage` (ImageProcessor.tsx,
lines 67–86), embedded with sequential assignments as primed `let`s:

```js
const aspectRatio = width / height;
let targetWidth = width; let targetHeight = height;
if (targetWidth > currentMaxWidth) {
  targetWidth = currentMaxWidth; targetHeight = targetWidth / aspectRatio; }
if (targetHeight > currentMaxHeight) {
  targetHeight = currentMaxHeight; targetWidth = targetHeight * aspectRatio; }
const finalWidth = Math.max(1, Math.round(targetWidth));
const finalHeight = Math.max(1, Math.round(targetHeight));
```
-/
def calcDimensions (W H maxW maxH : ℕ) : ℤ × ℤ :=
  let width : ℚ := (W : ℚ)
  let height : ℚ := (H : ℚ)
  let aspectRatio : ℚ := width / height
  let targetWidth : ℚ := width
  let targetHeight : ℚ := height
  let targetWidth' : ℚ := if targetWidth > (maxW : ℚ) then (maxW : ℚ) else targetWidth
  let targetHeight' : ℚ :=
    if targetWidth > (maxW : ℚ) then targetWidth' / aspectRatio else targetHeight
  let targetHeight'' : ℚ := if targetHeight' > (maxH : ℚ) then (maxH : ℚ) else targetHeight'
  let targetWidth'' : ℚ :=
    if targetHeight' > (maxH : ℚ) then targetHeight'' * aspectRatio else targetWidth'
  (max 1 (jsRound targetWidth''), max 1 (jsRound targetHeight''))

/-- The dimension algorithm as the specification words it (§4.1): compute
`aspect = W/H`; if `W > maxW`, set width to `maxW` and height to
`width/aspect`; then, against the possibly-already-shrunk height, if
`height > maxH`, set height to `maxH` and width to `height*aspect`; round
each to the nearest integer and floor at a 1-pixel minimum.  Written here
with an explicit pair state, to be compared with `calcDimensions`. -/
def calcDimensionsSpec (W H maxW maxH : ℕ) : ℤ × ℤ :=
  let aspect : ℚ := (W : ℚ) / (H : ℚ)
  let afterWidthClamp : ℚ × ℚ :=
    if (W : ℚ) > (maxW : ℚ) then ((maxW : ℚ), (maxW : ℚ) / aspect) else ((W : ℚ), (H : ℚ))
  let afterHeightClamp : ℚ × ℚ :=
    if afterWidthClamp.2 > (maxH : ℚ) then ((maxH : ℚ) * aspect, (maxH : ℚ))
    else afterWidthClamp
  (max 1 (jsRound afterHeightClamp.1), max 1 (jsRound afterHeightClamp.2))

example : calcDimensions 1600 1200 800 600 = (800, 600) := by
  norm_num [calcDimensions, jsRound]
example : calcDimensions 1000 500 800 800 = (800, 400) := by
  norm_num [calcDimensions, jsRound]
example : calcDimensions 10000 1 100 100 = (100, 1) := by
  norm_num [calcDimensions, jsRound]
example : calcDimensions 500 400 800 600 = (500, 400) := by
  norm_num [calcDimensions, jsRound]

lemma jsRound_intCast (n : ℤ) : jsRound (n : ℚ) = n := by
  unfold jsRound
  rw [Int.floor_int_add]
  norm_num

lemma jsRound_natCast (n : ℕ) : jsRound (n : ℚ) = (n : ℤ) := by
  rw [show ((n : ℚ)) = ((n : ℤ) : ℚ) by push_cast; ring, jsRound_intCast]

lemma jsRound_mono {x y : ℚ} (h : x ≤ y) : jsRound x ≤ jsRound y :=
  Int.floor_le_floor (by linarith)

lemma jsRound_le_natCast {x : ℚ} {n : ℕ} (h : x ≤ (n : ℚ)) : jsRound x ≤ (n : ℤ) := by
  calc jsRound x ≤ jsRound (n : ℚ) := jsRound_mono h
    _ = (n : ℤ) := jsRound_natCast n

lemma max_one_jsRound_le {x : ℚ} {n : ℕ} (hn : 1 ≤ n) (hx : x ≤ (n : ℚ)) :
    max 1 (jsRound x) ≤ (n : ℤ) :=
  max_le (by exact_mod_cast hn) (jsRound_le_natCast hx)

/-- C1: for every source image with width `W > 0`, height `H > 0` and
settings `maxW, maxH ≥ 1`, the dimension computation of `processImage`
follows exactly the algorithm of the specification: `aspect = W/H`; clamp
the width to `maxW` first (rescaling the height); then clamp the
possibly-already-shrunk height to `maxH` (rescaling the width); round each
dimension to the nearest integer and floor at a 1-pixel minimum. -/
theorem C1_dimension_algorithm (W H maxW maxH : ℕ)
    (hW : 0 < W) (hH : 0 < H) (hmW : 1 ≤ maxW) (hmH : 1 ≤ maxH) :
    calcDimensions W H maxW maxH = calcDimensionsSpec W H maxW maxH := by
  simp only [calcDimensions, calcDimensionsSpec]
  split_ifs <;> rfl

/-- Witness for `C1_dimension_algorithm` at `W = 1600, H = 1200,
maxW = 800, maxH = 600`. -/
theorem C1_dimension_algorithm_witness :
    0 < 1600 ∧ 0 < 1200 ∧ 1 ≤ 800 ∧ 1 ≤ 600 ∧
      calcDimensions 1600 1200 800 600 = calcDimensionsSpec 1600 1200 800 600 :=
  ⟨by decide, by decide, by decide, by decide,
    C1_dimension_algorithm 1600 1200 800 600 (by decide) (by decide) (by decide) (by decide)⟩

/-- C2: the final dimensions never exceed the configured bounds:
`finalWidth ≤ maxW` and `finalHeight ≤ maxH`, after rounding. -/
theorem C2_dimensions_bounded (W H maxW maxH : ℕ)
    (hW : 0 < W) (hH : 0 < H) (hmW : 1 ≤ maxW) (hmH : 1 ≤ maxH) :
    (calcDimensions W H maxW maxH).1 ≤ (maxW : ℤ) ∧
      (calcDimensions W H maxW maxH).2 ≤ (maxH : ℤ) := by
  have hWQ : (0 : ℚ) < (W : ℚ) := by exact_mod_cast hW
  have hHQ : (0 : ℚ) < (H : ℚ) := by exact_mod_cast hH
  simp only [calcDimensions]
  by_cases h1 : (W : ℚ) > (maxW : ℚ)
  · simp only [if_pos h1]
    by_cases h2 : (maxW : ℚ) / ((W : ℚ) / (H : ℚ)) > (maxH : ℚ)
    · simp only [if_pos h2]
      constructor
      · apply max_one_jsRound_le hmW
        rw [div_div_eq_mul_div, gt_iff_lt, lt_div_iff hWQ] at h2
        rw [mul_div_assoc']
        rw [div_le_iff hHQ]
        linarith
      · exact max_one_jsRound_le hmH le_rfl
    · simp only [if_neg h2]
      constructor
      · exact max_one_jsRound_le hmW le_rfl
      · exact max_one_jsRound_le hmH (not_lt.mp h2)
  · simp only [if_neg h1]
    by_cases h2 : (H : ℚ) > (maxH : ℚ)
    · simp only [if_pos h2]
      constructor
      · apply max_one_jsRound_le hmW
        rw [gt_iff_lt] at h2
        have hWle : (W : ℚ) ≤ (maxW : ℚ) := not_lt.mp h1
        rw [mul_div_assoc', div_le_iff hHQ]
        nlinarith
      · exact max_one_jsRound_le hmH le_rfl
    · simp only [if_neg h2]
      exact ⟨max_one_jsRound_le hmW (not_lt.mp h1), max_one_jsRound_le hmH (not_lt.mp h2)⟩

/-- Witness for `C2_dimensions_bounded` at `W = 1000, H = 500,
maxW = 800, maxH = 800`. -/
theorem C2_dimensions_bounded_witness :
    0 < 1000 ∧ 0 < 500 ∧ 1 ≤ 800 ∧
      (calcDimensions 1000 500 800 800).1 ≤ (800 : ℤ) ∧
      (calcDimensions 1000 500 800 800).2 ≤ (800 : ℤ) :=
  ⟨by decide, by decide, by decide,
    (C2_dimensions_bounded 1000 500 800 800 (by decide) (by decide) (by decide) (by decide)).1,
    (C2_dimensions_bounded 1000 500 800 800 (by decide) (by decide) (by decide) (by decide)).2⟩

/-- C6: the dimension computation always produces a pair of positive
integers (`≥ 1` each), with no error cases; and when the source already
fits (`W ≤ maxW` and `H ≤ maxH`) it returns `(W, H)` unchanged. -/
theorem C6_positive_and_identity (W H maxW maxH : ℕ)
    (hW : 0 < W) (hH : 0 < H) (hmW : 1 ≤ maxW) (hmH : 1 ≤ maxH) :
    1 ≤ (calcDimensions W H maxW maxH).1 ∧
      1 ≤ (calcDimensions W H maxW maxH).2 ∧
      (W ≤ maxW → H ≤ maxH → calcDimensions W H maxW maxH = ((W : ℤ), (H : ℤ))) := by
  refine ⟨?_, ?_, ?_⟩
  · simp only [calcDimensions]
    exact le_max_left _ _
  · simp only [calcDimensions]
    exact le_max_left _ _
  · intro hWle hHle
    have h1 : ¬ ((W : ℚ) > (maxW : ℚ)) := not_lt.mpr (by exact_mod_cast hWle)
    have h2 : ¬ ((H : ℚ) > (maxH : ℚ)) := not_lt.mpr (by exact_mod_cast hHle)
    simp only [calcDimensions, if_neg h1, if_neg h2]
    rw [jsRound_natCast, jsRound_natCast, max_eq_right, max_eq_right]
    · exact_mod_cast hH
    · exact_mod_cast hW

/-- Witness for `C6_positive_and_identity` at `W = 500, H = 400,
maxW = 800, maxH = 600` (a source that already fits). -/
theorem C6_positive_and_identity_witness :
    0 < 500 ∧ 0 < 400 ∧ 1 ≤ 800 ∧ 1 ≤ 600 ∧ 500 ≤ 800 ∧ 400 ≤ 600 ∧
      1 ≤ (calcDimensions 500 400 800 600).1 ∧
      calcDimensions 500 400 800 600 = ((500 : ℤ), (400 : ℤ)) :=
  ⟨by decide, by decide, by decide, by decide, by decide, by decide,
    (C6_positive_and_identity 500 400 800 600 (by decide) (by decide) (by decide) (by decide)).1,
    (C6_positive_and_identity 500 400 800 600 (by decide) (by decide) (by decide)
      (by decide)).2.2 (by decide) (by decide)⟩

/-- The component's reactive state (the `useState` hooks of
`ImageProcessor`, minus purely presentational state such as
`isDraggingOver`).  `processedDimensions` is stored as the pair produced by
the dimension computation. -/
structure PState where
  originalImageBase64 : Option String
  processedImageBase64 : Option String
  base64Length : ℕ
  processedDimensions : Option (ℤ × ℤ)
  originalFileName : String
  error : Option String
  processing : Bool
deriving DecidableEq, Repr

/-- The character sequence of a string with ASCII letters lowered — the
case canonicalisation a case-insensitive regex performs per character. -/
def lowerAscii (t : String) : List Char := t.data.map Char.toLower

/-- Model of the regex test `file.type.match(/^image\/jpe?g$/i)` in
`handleFile`: the MIME type matches exactly `image/jpeg` or `image/jpg`,
ASCII-case-insensitively. -/
def mimeMatch (t : String) : Bool :=
  lowerAscii t == "image/jpeg".data || lowerAscii t == "image/jpg".data

/-- The error message set by `handleFile` on a wrong MIME type. -/
def unsupportedTypeMsg : String := "Please select or drop a JPG/JPEG image file."

/-- The reset block at the top of `handleFile`: previous results are
cleared immediately on every new file-selection attempt, before any
validation happens. -/
def resetResults (s : PState) : PState :=
  { s with
    originalImageBase64 := none
    processedImageBase64 := none
    base64Length := 0
    originalFileName := ""
    error := none
    processedDimensions := none }

/-- A file-like object handed to `handleFile`: its name and MIME type. -/
structure JSFile where
  name : String
  type : String
deriving DecidableEq, Repr

/-- The synchronous part of `handleFile` (ImageProcessor.tsx, lines
151–198).  Returns the updated state and whether the `FileReader` read into
a Base64 data URL was started.  The body mirrors the source: reset all
previous results; return if no file; reject non-JPEG MIME types with
`unsupportedTypeMsg`; otherwise record the file name, set the busy flag,
and start the read. -/
def handleFile (f : Option JSFile) (s : PState) : PState × Bool :=
  let s' := resetResults s
  match f with
  | none => (s', false)
  | some file =>
    if ¬ mimeMatch file.type then
      ({ s' with error := some unsupportedTypeMsg }, false)
    else
      ({ s' with originalFileName := file.name, processing := true }, true)

/-- Outcome of the platform image decode (`img.onload` vs `img.onerror`);
on success it carries the decoded raster's natural width and height. -/
inductive DecodeOutcome where
  | fail : DecodeOutcome
  | ok : ℕ → ℕ → DecodeOutcome
deriving DecidableEq, Repr

/-- Outcome of `canvas.toDataURL('image/jpeg', quality)`: either the
encoded data URL string, or a thrown error with a message. -/
inductive EncodeOutcome where
  | throws : String → EncodeOutcome
  | ok : String → EncodeOutcome
deriving DecidableEq, Repr

/-- The error message set by `processImage` when image decode fails. -/
def decodeErrorMsg : String := "Failed to load the image data for processing."

/-- The error message set by `processImage` when the canvas 2D context is
unavailable. -/
def ctxErrorMsg : String := "Could not get canvas context."

/-- The synchronous entry of `processImage` (ImageProcessor.tsx, lines
46–51), run before the image decode callback fires: guard on an empty
source, then set the busy flag, clear the error and reset the processed
dimensions.  This is the state visible while recomputation is in flight. -/
def processImageEntry (sourceBase64 : String) (s : PState) : PState :=
  if sourceBase64 = "" then s
  else { s with processing := true, error := none, processedDimensions := none }

/-- The decode callback of `processImage` (ImageProcessor.tsx, lines
54–127): `img.onerror` sets the decode error and clears all derived state;
`img.onload` either fails on a missing canvas context, or computes the
target dimensions, stores them, draws, and encodes — storing the result on
success and clearing everything but the busy flag on an encode throw; every
branch ends with `setProcessing(false)`.  The platform outcomes (decode,
context availability, encode) are parameters. -/
def processImageCallback (maxW maxH : ℕ) (dec : DecodeOutcome) (ctxOk : Bool)
    (enc : EncodeOutcome) (s : PState) : PState :=
  match dec with
  | .fail =>
    { s with
      error := some decodeErrorMsg
      processedImageBase64 := none
      processedDimensions := none
      base64Length := 0
      processing := false }
  | .ok W H =>
    if ¬ ctxOk then
      { s with error := some ctxErrorMsg, processing := false }
    else
      let dims := calcDimensions W H maxW maxH
      let s1 := { s with processedDimensions := some dims }
      match enc with
      | .ok data =>
        { s1 with
          processedImageBase64 := some data
          base64Length := data.length
          error := none
          processing := false }
      | .throws m =>
        { s1 with
          error := some ("Error processing image: " ++ m)
          processedImageBase64 := none
          processedDimensions := none
          base64Length := 0
          processing := false }

/-- A complete `processImage` run: the synchronous entry followed by the
decode callback (which only fires when a source was supplied). -/
def processImageRun (sourceBase64 : String) (maxW maxH : ℕ) (dec : DecodeOutcome)
    (ctxOk : Bool) (enc : EncodeOutcome) (s : PState) : PState :=
  if sourceBase64 = "" then s
  else processImageCallback maxW maxH dec ctxOk enc (processImageEntry sourceBase64 s)

example : mimeMatch "image/jpeg" = true := by decide
example : mimeMatch "image/jpg" = true := by decide
example : mimeMatch "IMAGE/JPEG" = true := by decide
example : mimeMatch "image/png" = false := by decide
example : mimeMatch "image/jpeeg" = false := by decide

/-- A pristine component state (all `useState` initial values). -/
def initState : PState :=
  { originalImageBase64 := none
    processedImageBase64 := none
    base64Length := 0
    processedDimensions := none
    originalFileName := ""
    error := none
    processing := false }

/-- A state holding a previously computed `ProcessedResult`. -/
def prevResultState : PState :=
  { originalImageBase64 := some "data:image/jpeg;base64,OLD"
    processedImageBase64 := some "data:image/jpeg;base64,PREV"
    base64Length := 28
    processedDimensions := some (800, 600)
    originalFileName := "previous.jpg"
    error := none
    processing := false }

/-- A PNG file-like object, as in the claim about rejected ingestion. -/
def pngFile : JSFile := { name := "new.png", type := "image/png" }

/-- C3 counterexample: submitting a PNG to `handleFile` does NOT leave the
previously computed result untouched — `handleFile` resets every result
field before the MIME check, so the previous Base64 string, dimensions,
length and file name are all gone (while the unsupported-type error is
reported). -/
theorem C3_counterexample :
    (handleFile (some pngFile) prevResultState).1.error = some unsupportedTypeMsg ∧
      prevResultState.processedImageBase64 = some "data:image/jpeg;base64,PREV" ∧
      (handleFile (some pngFile) prevResultState).1.processedImageBase64 ≠
        prevResultState.processedImageBase64 ∧
      (handleFile (some pngFile) prevResultState).1.base64Length ≠
        prevResultState.base64Length ∧
      (handleFile (some pngFile) prevResultState).1.processedDimensions ≠
        prevResultState.processedDimensions ∧
      (handleFile (some pngFile) prevResultState).1.originalFileName ≠
        prevResultState.originalFileName := by
  decide

/-- C3 amended: submitting a file with a non-JPEG MIME type reports the
unsupported-type error and CLEARS every field of any previously computed
result (the reset happens at the start of the ingestion attempt, before
validation); no read is started. -/
theorem C3_png_rejected_clears (s : PState) (f : JSFile) (h : mimeMatch f.type = false) :
    (handleFile (some f) s).1.error = some unsupportedTypeMsg ∧
      (handleFile (some f) s).1.processedImageBase64 = none ∧
      (handleFile (some f) s).1.base64Length = 0 ∧
      (handleFile (some f) s).1.processedDimensions = none ∧
      (handleFile (some f) s).1.originalFileName = "" ∧
      (handleFile (some f) s).1.originalImageBase64 = none ∧
      (handleFile (some f) s).2 = false := by
  simp [handleFile, resetResults, h]

/-- Witness for `C3_png_rejected_clears` on a PNG file. -/
theorem C3_png_rejected_clears_witness :
    mimeMatch pngFile.type = false ∧
      (handleFile (some pngFile) prevResultState).1.error = some unsupportedTypeMsg ∧
      (handleFile (some pngFile) prevResultState).1.processedImageBase64 = none :=
  ⟨by decide, (C3_png_rejected_clears prevResultState pngFile (by decide)).1,
    (C3_png_rejected_clears prevResultState pngFile (by decide)).2.1⟩

/-- A state holding a stale `ProcessedResult`, used to inspect the state
left in place while `processImage` recomputation is in flight. -/
def staleResultState : PState :=
  { originalImageBase64 := some "data:image/jpeg;base64,OLD"
    processedImageBase64 := some "data:image/jpeg;base64,STALE"
    base64Length := 30
    processedDimensions := some (640, 480)
    originalFileName := "photo.jpg"
    error := none
    processing := false }

/-- C4 counterexample: on entry `processImage` does NOT clear all fields of
the previous result — only `processedDimensions` (and the error) are reset;
the stale encoded Base64 string and its length remain stored while
recomputation is in flight. -/
theorem C4_counterexample :
    (processImageEntry "data:image/jpeg;base64,NEW" staleResultState).processedImageBase64 =
        some "data:image/jpeg;base64,STALE" ∧
      (processImageEntry "data:image/jpeg;base64,NEW" staleResultState).base64Length = 30 ∧
      ¬ ((processImageEntry "data:image/jpeg;base64,NEW" staleResultState).processedImageBase64 =
            none ∧
          (processImageEntry "data:image/jpeg;base64,NEW" staleResultState).base64Length = 0) := by
  decide

/-- C4 amended: on entry to a reprocessing run (non-empty source),
`processImage` sets the busy flag, clears the error and the processed
dimensions, but leaves the previously stored encoded Base64 data and its
length unchanged; they are only replaced or cleared when the run reaches a
terminal branch. -/
theorem C4_entry_partial_reset (src : String) (s : PState) (h : src ≠ "") :
    (processImageEntry src s).processing = true ∧
      (processImageEntry src s).error = none ∧
      (processImageEntry src s).processedDimensions = none ∧
      (processImageEntry src s).processedImageBase64 = s.processedImageBase64 ∧
      (processImageEntry src s).base64Length = s.base64Length := by
  simp [processImageEntry, h]

/-- Witness for `C4_entry_partial_reset` on a stale-result state. -/
theorem C4_entry_partial_reset_witness :
    "data:image/jpeg;base64,NEW" ≠ "" ∧
      (processImageEntry "data:image/jpeg;base64,NEW" staleResultState).processing = true ∧
      (processImageEntry "data:image/jpeg;base64,NEW" staleResultState).processedImageBase64 =
        staleResultState.processedImageBase64 :=
  ⟨by decide,
    (C4_entry_partial_reset "data:image/jpeg;base64,NEW" staleResultState (by decide)).1,
    (C4_entry_partial_reset "data:image/jpeg;base64,NEW" staleResultState (by decide)).2.2.2.1⟩

/-- C5: `processImage` sets the busy flag on entry (when invoked with a
source), and on every exit path of the run — decode failure, missing
canvas context, encode throw, or success — the busy flag is back to
`false` when the run terminates. -/
theorem C5_busy_flag (src : String) (maxW maxH : ℕ) (dec : DecodeOutcome)
    (ctxOk : Bool) (enc : EncodeOutcome) (s : PState) (h : src ≠ "") :
    (processImageEntry src s).processing = true ∧
      (processImageRun src maxW maxH dec ctxOk enc s).processing = false := by
  constructor
  · simp [processImageEntry, h]
  · simp only [processImageRun, if_neg h]
    cases dec with
    | fail => simp [processImageCallback]
    | ok W H =>
      cases ctxOk with
      | false => simp [processImageCallback]
      | true => cases enc <;> simp [processImageCallback]

/-- Witness for `C5_busy_flag` on a successful run over a pristine state. -/
theorem C5_busy_flag_witness :
    "data:image/jpeg;base64,SRC" ≠ "" ∧
      (processImageEntry "data:image/jpeg;base64,SRC" initState).processing = true ∧
      (processImageRun "data:image/jpeg;base64,SRC" 800 600 (.ok 1600 1200) true
          (.ok "data:image/jpeg;base64,OUT") initState).processing = false :=
  ⟨by decide,
    (C5_busy_flag "data:image/jpeg;base64,SRC" 800 600 (.ok 1600 1200) true
      (.ok "data:image/jpeg;base64,OUT") initState (by decide)).1,
    (C5_busy_flag "data:image/jpeg;base64,SRC" 800 600 (.ok 1600 1200) true
      (.ok "data:image/jpeg;base64,OUT") initState (by decide)).2⟩

/-- C7: `handleFile` starts the Base64 read exactly when the file's MIME
type passes the JPEG check; a missing file never starts a read; a failing
MIME check sets the unsupported-type error; and the check accepts exactly
the strings whose lowercase form is `image/jpeg` or `image/jpg`. -/
theorem C7_mime_gate (s : PState) (f : JSFile) :
    ((handleFile (some f) s).2 = mimeMatch f.type) ∧
      ((handleFile none s).2 = false) ∧
      (mimeMatch f.type = false →
        (handleFile (some f) s).1.error = some unsupportedTypeMsg) ∧
      (mimeMatch f.type = true ↔
        (lowerAscii f.type = "image/jpeg".data ∨ lowerAscii f.type = "image/jpg".data)) := by
  refine ⟨?_, rfl, ?_, ?_⟩
  · by_cases h : mimeMatch f.type <;> simp [handleFile, h]
  · intro h
    simp [handleFile, h]
  · simp [mimeMatch]

/-- Witness for `C7_mime_gate`: a PNG is rejected with the error set. -/
theorem C7_mime_gate_witness :
    mimeMatch "IMAGE/Jpeg" = true ∧ mimeMatch "image/png" = false ∧
      (handleFile (some ⟨"a.png", "image/png"⟩) initState).1.error =
        some unsupportedTypeMsg :=
  ⟨by decide, by decide,
    (C7_mime_gate initState ⟨"a.png", "image/png"⟩).2.2.1 (by decide)⟩

/-- C8: when decode fails during a run, the run terminates with the decode
error message ("Failed to load the image data for processing."), all
derived result state is cleared, and the system is left non-busy. -/
theorem C8_decode_failure (src : String) (maxW maxH : ℕ) (ctxOk : Bool)
    (enc : EncodeOutcome) (s : PState) (h : src ≠ "") :
    (processImageRun src maxW maxH .fail ctxOk enc s).error = some decodeErrorMsg ∧
      (processImageRun src maxW maxH .fail ctxOk enc s).processedImageBase64 = none ∧
      (processImageRun src maxW maxH .fail ctxOk enc s).processedDimensions = none ∧
      (processImageRun src maxW maxH .fail ctxOk enc s).base64Length = 0 ∧
      (processImageRun src maxW maxH .fail ctxOk enc s).processing = false ∧
      decodeErrorMsg = "Failed to load the image data for processing." := by
  simp [processImageRun, processImageCallback, processImageEntry, decodeErrorMsg, h]

/-- Witness for `C8_decode_failure` on a stale-result state. -/
theorem C8_decode_failure_witness :
    "data:image/jpeg;base64,BAD" ≠ "" ∧
      (processImageRun "data:image/jpeg;base64,BAD" 800 600 .fail true
          (.ok "unused") staleResultState).error = some decodeErrorMsg ∧
      (processImageRun "data:image/jpeg;base64,BAD" 800 600 .fail true
          (.ok "unused") staleResultState).processing = false :=
  ⟨by decide,
    (C8_decode_failure "data:image/jpeg;base64,BAD" 800 600 true (.ok "unused")
      staleResultState (by decide)).1,
    (C8_decode_failure "data:image/jpeg;base64,BAD" 800 600 true (.ok "unused")
      staleResultState (by decide)).2.2.2.2.1⟩

/-- The user-adjustable settings the dimension computation consumes.  The
`quality` field holds the JPEG quality factor (a JavaScript number, here an
exact rational standing in for `parseFloat`'s result). -/
structure Settings where
  quality : ℚ
  maxWidth : ℤ
  maxHeight : ℤ
deriving DecidableEq, Repr

/-- Whitespace stripped from both ends of a character sequence (the
leading-whitespace skip `parseInt` performs, plus the harmless trailing
strip). -/
def trimChars (l : List Char) : List Char :=
  ((l.dropWhile Char.isWhitespace).reverse.dropWhile Char.isWhitespace).reverse

/-- Model of JavaScript `parseInt(value, 10)`: skip surrounding
whitespace, read an optional sign and then the leading run of decimal
digits; `none` models `NaN` (no digits at all). -/
def parseIntJS (s : String) : Option ℤ :=
  let core : List Char → Option ℕ := fun l =>
    let ds := l.takeWhile Char.isDigit
    if ds.isEmpty then none
    else some (ds.foldl (fun acc c => acc * 10 + (c.toNat - 48)) 0)
  match trimChars s.data with
  | '-' :: rest => (core rest).map (fun n => -(n : ℤ))
  | '+' :: rest => (core rest).map (fun n => (n : ℤ))
  | l => (core l).map (fun n => (n : ℤ))

/-- The clamp applied by `handleSettingChange` to the dimension inputs:
`Math.max(1, parseInt(value, 10) || 1)` — `NaN` and `0` are both falsy and
fall back to `1`, and the result is floored at `1`. -/
def clampDim (value : String) : ℤ :=
  max 1 (match parseIntJS value with
    | none => 1
    | some n => if n = 0 then 1 else n)

/-- `handleSettingChange` (ImageProcessor.tsx, lines 208–217), as it acts
on the settings record: the `quality` input goes through `parseFloat`
(whose IEEE-double result is abstracted as the rational `parsedQuality`);
the `maxWidth` and `maxHeight` inputs go through the `clampDim` clamp; the
spread `{...prev, [name]: v}` leaves every other field unchanged. -/
def handleSettingChange (name value : String) (parsedQuality : ℚ)
    (s : Settings) : Settings :=
  if name = "quality" then { s with quality := parsedQuality }
  else if name = "maxWidth" then { s with maxWidth := clampDim value }
  else if name = "maxHeight" then { s with maxHeight := clampDim value }
  else s

example : clampDim "" = 1 := by decide
example : clampDim "abc" = 1 := by decide
example : clampDim "0" = 1 := by decide
example : clampDim "-25" = 1 := by decide
example : clampDim "640" = 640 := by decide
example : clampDim " 640px " = 640 := by decide

/-- C10: every settings update keeps the stored `maxWidth` and `maxHeight`
at integers `≥ 1`, and the clamp sends empty, non-numeric, zero and
negative raw inputs to `1`. -/
theorem C10_settings_invariant :
    (∀ (name value : String) (q : ℚ) (s : Settings),
        1 ≤ s.maxWidth → 1 ≤ s.maxHeight →
          1 ≤ (handleSettingChange name value q s).maxWidth ∧
            1 ≤ (handleSettingChange name value q s).maxHeight) ∧
      clampDim "" = 1 ∧ clampDim "abc" = 1 ∧ clampDim "0" = 1 ∧ clampDim "-3" = 1 := by
  refine ⟨?_, by decide, by decide, by decide, by decide⟩
  intro name value q s hW hH
  have hclamp : 1 ≤ clampDim value := le_max_left _ _
  unfold handleSettingChange
  split_ifs <;> exact ⟨by assumption, by assumption⟩

/-- Witness for `C10_settings_invariant`: a non-numeric `maxWidth` edit on
the default settings keeps both dimensions at `≥ 1`. -/
theorem C10_settings_invariant_witness :
    1 ≤ (Settings.mk (4/5) 800 600).maxWidth ∧
      1 ≤ (Settings.mk (4/5) 800 600).maxHeight ∧
      1 ≤ (handleSettingChange "maxWidth" "abc" (4/5) (Settings.mk (4/5) 800 600)).maxWidth ∧
      1 ≤ (handleSettingChange "maxWidth" "abc" (4/5) (Settings.mk (4/5) 800 600)).maxHeight :=
  ⟨by norm_num, by norm_num,
    ((C10_settings_invariant.1 "maxWidth" "abc" (4/5) (Settings.mk (4/5) 800 600)
      (by norm_num) (by norm_num))).1,
    ((C10_settings_invariant.1 "maxWidth" "abc" (4/5) (Settings.mk (4/5) 800 600)
      (by norm_num) (by norm_num))).2⟩

/-- The trailing-edge debounce of `useDebounce` (ImageProcessor.tsx, lines
6–22) as a discrete-event function: `events` is the time-ordered list of
`(time, value)` changes of the input; each change schedules an update of
the debounced value at `time + delay` and cancels the previously scheduled
one (`clearTimeout`) if it has not fired yet.  The result is the list of
`(fireTime, value)` updates the downstream observer sees — each of which
triggers one reprocessing run in the component's effect. -/
def debounceFires {α : Type} (delay : ℕ) : List (ℕ × α) → List (ℕ × α)
  | [] => []
  | (t, v) :: rest =>
    match rest with
    | [] => [(t + delay, v)]
    | (t2, _) :: _ =>
      if t2 < t + delay then debounceFires delay rest
      else (t + delay, v) :: debounceFires delay rest

example : debounceFires 500 [(0, 1), (100, 2), (300, 3)] = [(800, 3)] := by decide
example : debounceFires 500 [(0, 1), (600, 2)] = [(500, 1), (1100, 2)] := by decide

/-- C9: when every settings edit of a non-empty sequence arrives within
500 ms of the previous one (so each one cancels the pending timer), the
debounced settings value updates exactly once — at 500 ms after the last
edit, with the last edit's settings — and therefore exactly one
reprocessing run is triggered, using only the final settings values. -/
theorem C9_debounce_single_fire (events : List (ℕ × Settings)) (h : events ≠ [])
    (hgaps : List.Chain' (fun a b => b.1 < a.1 + 500) events) :
    debounceFires 500 events =
      [((events.getLast h).1 + 500, (events.getLast h).2)] := by
  induction events with
  | nil => exact absurd rfl h
  | cons e rest ih =>
    match rest, hgaps with
    | [], _ =>
      simp [debounceFires]
    | e2 :: rest', hgaps =>
      rw [List.chain'_cons] at hgaps
      have hne : e2 :: rest' ≠ [] := List.cons_ne_nil _ _
      rw [List.getLast_cons hne]
      simp only [debounceFires, if_pos hgaps.1]
      exact ih hne hgaps.2

/-- Witness for `C9_debounce_single_fire`: three edits at 0 ms, 100 ms and
300 ms produce a single fire at 800 ms carrying the third edit's
settings. -/
theorem C9_debounce_single_fire_witness :
    ([(0, Settings.mk 1 800 600), (100, Settings.mk 1 700 600),
        (300, Settings.mk 1 640 480)] : List (ℕ × Settings)) ≠ [] ∧
      debounceFires 500
          [(0, Settings.mk 1 800 600), (100, Settings.mk 1 700 600),
            (300, Settings.mk 1 640 480)] =
        [(800, Settings.mk 1 640 480)] := by
  constructor
  · simp
  · have hch : List.Chain' (fun (a b : ℕ × Settings) => b.1 < a.1 + 500)
        [(0, Settings.mk 1 800 600), (100, Settings.mk 1 700 600),
          (300, Settings.mk 1 640 480)] := by
      simp [List.chain'_cons]
    exact C9_debounce_single_fire _ (List.cons_ne_nil _ _) hch

end PhotoConvert
